import Mathlib

/-!
Verification development for the GhostlyGridWorld environment
(src/ghostly_grid/envs/ghostly_grid_v0.py).

The environment is embedded shallowly: numpy integer coordinate pairs become
`Int × Int`; the gym `Box` spaces become `BoxSpace` records of their integer
bounds; random draws (`Box.sample`, `np.random.randint`) become explicit
natural-number entropy arguments reduced into the sampled range; Python
exceptions (`AssertionError` from the constructor asserts, `KeyError` from the
direction-table lookup, `AttributeError` from touching `_agent_location`
before `reset`) become an `Except PyError` result.  `step` returns the
environment paired with the `Except` outcome so that the state on the error
path is explicit.
-/

namespace GhostlyGrid

/-- Python exceptions surfaced by the environment. -/
inductive PyError where
  | assertionError
  | keyError
  | attributeError
deriving DecidableEq, Repr

/-- The stored render mode (the string `self.render_mode`). -/
inductive RMode where
  | noneMode
  | human
  | rgbArray
deriving DecidableEq, Repr

/-- The `render_mode` constructor argument: `None`, a recognized string, or
any unrecognized value (suffices since the code only tests membership in
`metadata["render_modes"]`). -/
inductive RenderArg where
  | noneArg
  | humanArg
  | rgbArrayArg
  | invalidArg
deriving DecidableEq, Repr

/-- A gym `spaces.Box(low, high, shape=(2,), dtype=int)`: both coordinates
range over `[low, high]`. -/
structure BoxSpace where
  low : Int
  high : Int
deriving DecidableEq, Repr

/-- Sampling from a box: each raw entropy draw is reduced into
`[low, high]`.  (`low + r % (high - low + 1)`; faithful to the declared
bounds of the space, which is all the code relies on.) -/
def BoxSpace.sample (b : BoxSpace) (r1 r2 : Nat) : Int × Int :=
  (b.low + ((r1 % (b.high - b.low + 1).toNat : Nat) : Int),
   b.low + ((r2 % (b.high - b.low + 1).toNat : Nat) : Int))

/-- The positional state `_agent_location`, `_ghost1_location`,
`_ghost2_location`, `_target_location`.  These attributes are created
together by `reset`, hence one optional record on the environment. -/
structure WorldState where
  agent : Int × Int
  ghost1 : Int × Int
  ghost2 : Int × Int
  target : Int × Int
deriving DecidableEq, Repr

/-- The observation dict `{"agent": .., "ghost1": .., "ghost2": .., "target": ..}`. -/
structure Obs where
  agent : Int × Int
  ghost1 : Int × Int
  ghost2 : Int × Int
  target : Int × Int
deriving DecidableEq, Repr

/-- The `GhostlyGridWorld` instance: `size`, the observation-space boxes, the
stored `render_mode`, and the optional positional state (absent until the
first `reset`). -/
structure GhostlyGridWorld where
  size : Nat
  agentSpace : BoxSpace
  targetSpace : BoxSpace
  ghost1Space : BoxSpace
  ghost2Space : BoxSpace
  renderMode : RMode
  st : Option WorldState
deriving DecidableEq, Repr

/-- Whether the `render_mode` argument passes the constructor assert
(`render_mode is None or render_mode in self.metadata["render_modes"]`). -/
def renderArgValid : RenderArg → Bool
  | .invalidArg => false
  | _ => true

/-- `GhostlyGridWorld.__init__(size, render_mode)`.  Asserts `size >= 6`,
builds the observation-space boxes (`agent`: `[0,0]`, `target`:
`[size-1, size-1]`, ghosts: `[2, size-1]`), asserts the render mode is
recognized, and then stores `self.render_mode = 'human'` (source line 48
hardcodes the string instead of the parameter).  No positions are sampled. -/
def mkGhostlyGridWorld (size : Nat) (renderMode : RenderArg) : Except PyError GhostlyGridWorld :=
  if 6 ≤ size then
    if renderArgValid renderMode then
      Except.ok
        { size := size
          agentSpace := ⟨0, 0⟩
          targetSpace := ⟨(size : Int) - 1, (size : Int) - 1⟩
          ghost1Space := ⟨2, (size : Int) - 1⟩
          ghost2Space := ⟨2, (size : Int) - 1⟩
          renderMode := RMode.human
          st := none }
    else Except.error PyError.assertionError
  else Except.error PyError.assertionError

/-- `self.action_to_direction`: the 4-entry lookup table; any other key is a
`KeyError` (modelled as `none`). -/
def actionToDirection (a : Int) : Option (Int × Int) :=
  if a = 0 then some (1, 0)
  else if a = 1 then some (0, 1)
  else if a = 2 then some (-1, 0)
  else if a = 3 then some (0, -1)
  else none

/-- `np.random.randint(0, 4)` followed by the direction lookup: the raw
entropy draw is reduced mod 4, which always hits the table. -/
def ghostDirection (d : Nat) : Int × Int :=
  (actionToDirection ((d % 4 : Nat) : Int)).getD (0, 0)

/-- Componentwise vector addition of a position and a direction. -/
def add2 (p q : Int × Int) : Int × Int := (p.1 + q.1, p.2 + q.2)

/-- `np.clip(v, lo, hi)` applied to a coordinate pair: each coordinate is
clamped independently. -/
def clip2 (p : Int × Int) (lo hi : Int) : Int × Int :=
  (max lo (min p.1 hi), max lo (min p.2 hi))

/-- `get_reward`: ghost catch (checked first) gives `(-1, True)`, else target
gives `(+1, True)`, else `(0, False)`. -/
def get_reward (s : WorldState) : Int × Bool :=
  if s.agent = s.ghost1 ∨ s.agent = s.ghost2 then (-1, true)
  else if s.agent = s.target then (1, true)
  else (0, false)

/-- `get_observation`, value level: builds the observation dict from the
positional attributes; raises `AttributeError` when they do not yet exist. -/
def get_observation (e : GhostlyGridWorld) : Except PyError Obs :=
  match e.st with
  | some s => Except.ok ⟨s.agent, s.ghost1, s.ghost2, s.target⟩
  | none => Except.error PyError.attributeError

/-- `step(action)` with the two ghost entropy draws made explicit.  Returns
the environment after the call (unchanged on the error path) together with
the outcome `(observation, reward, done, frame_drawn)`; `frame_drawn`
records whether `_render_frame` was invoked (`render_mode == "human"`).
The direction lookup (source line 63) runs before any attribute access or
assignment, so an invalid action errors with the state untouched; the
positional attributes are read next (line 68), so a missing state errors
before any assignment as well. -/
def step (e : GhostlyGridWorld) (action : Int) (d1 d2 : Nat) :
    GhostlyGridWorld × Except PyError (Obs × Int × Bool × Bool) :=
  match actionToDirection action with
  | none => (e, Except.error PyError.keyError)
  | some agentDir =>
    let ghost1Dir := ghostDirection d1
    let ghost2Dir := ghostDirection d2
    match e.st with
    | none => (e, Except.error PyError.attributeError)
    | some s =>
      let agent' := clip2 (add2 s.agent agentDir) 0 ((e.size : Int) - 1)
      let ghost1' := clip2 (add2 s.ghost1 ghost1Dir) 0 ((e.size : Int) - 1)
      let ghost2' := clip2 (add2 s.ghost2 ghost2Dir) 0 ((e.size : Int) - 1)
      let s' : WorldState := ⟨agent', ghost1', ghost2', s.target⟩
      let rd := get_reward s'
      let obs : Obs := ⟨s'.agent, s'.ghost1, s'.ghost2, s'.target⟩
      let drew := e.renderMode = RMode.human
      ({ e with st := some s' }, Except.ok (obs, rd.1, rd.2, decide drew))

/-- The raw entropy consumed by one `reset`: two draws per `Box.sample` call,
in source order (agent, ghost1, ghost2, target). -/
structure ResetDraws where
  a1 : Nat
  a2 : Nat
  g11 : Nat
  g12 : Nat
  g21 : Nat
  g22 : Nat
  t1 : Nat
  t2 : Nat
deriving DecidableEq, Repr

/-- `reset()`: samples the four positions from their spaces, rebuilds the
observation, and reports whether a frame was drawn. -/
def reset (e : GhostlyGridWorld) (d : ResetDraws) : GhostlyGridWorld × Obs × Bool :=
  let agentL := e.agentSpace.sample d.a1 d.a2
  let ghost1L := e.ghost1Space.sample d.g11 d.g12
  let ghost2L := e.ghost2Space.sample d.g21 d.g22
  let targetL := e.targetSpace.sample d.t1 d.t2
  let e' := { e with st := some ⟨agentL, ghost1L, ghost2L, targetL⟩ }
  (e', ⟨agentL, ghost1L, ghost2L, targetL⟩, decide (e.renderMode = RMode.human))

/-- The states reachable from a constructed environment by any interleaving
of `reset` and `step` calls with arbitrary actions and entropy draws
(`step` leaves the state unchanged when it raises). -/
inductive Reachable (e0 : GhostlyGridWorld) : GhostlyGridWorld → Prop where
  | init : Reachable e0 e0
  | resetR (e : GhostlyGridWorld) (d : ResetDraws) :
      Reachable e0 e → Reachable e0 (reset e d).1
  | stepR (e : GhostlyGridWorld) (a : Int) (d1 d2 : Nat) :
      Reachable e0 e → Reachable e0 (step e a d1 d2).1

/-- A coordinate pair lies on the `size × size` grid. -/
def inBoundsP (size : Nat) (p : Int × Int) : Prop :=
  0 ≤ p.1 ∧ p.1 ≤ (size : Int) - 1 ∧ 0 ≤ p.2 ∧ p.2 ≤ (size : Int) - 1

/-- One scripted step: an action plus the two ghost entropy draws. -/
abbrev StepScript := List (Int × Nat × Nat)

/-- Runs a list of scripted steps, threading the environment and collecting
each step's `(observation, reward, done)` outcome. -/
def runSteps : GhostlyGridWorld → StepScript → List (Except PyError (Obs × Int × Bool))
  | _, [] => []
  | e, (a, d1, d2) :: rest =>
    let r := step e a d1 d2
    (r.2.map fun o => (o.1, o.2.1, o.2.2.1)) :: runSteps r.1 rest

/-- `reset()` followed by a scripted sequence of `step` calls: the initial
observation and the per-step outcomes. -/
def runEpisode (e : GhostlyGridWorld) (rd : ResetDraws) (script : StepScript) :
    Obs × List (Except PyError (Obs × Int × Bool)) :=
  let r := reset e rd
  (r.2.1, runSteps r.1 script)

/-!
Reference-level model for the observation aliasing question.  In the source,
`get_observation` returns a dict whose values are the very numpy arrays held
in `self._agent_location` etc. (no copy is taken), so at this level positions
are references into a heap of arrays.
-/

/-- A heap of 2-element integer arrays, indexed by reference. -/
def Heap := List (Int × Int)

/-- Reading the array behind a reference. -/
def Heap.read (h : Heap) (r : Nat) : Int × Int := List.getD h r (0, 0)

/-- In-place mutation of the array behind a reference (what a caller does to
a numpy array inside a returned observation). -/
def Heap.write (h : Heap) (r : Nat) (v : Int × Int) : Heap := List.set h r v

/-- The environment's positional attributes, as references to arrays. -/
structure EnvRefs where
  agentRef : Nat
  ghost1Ref : Nat
  ghost2Ref : Nat
  targetRef : Nat
deriving DecidableEq, Repr

/-- The observation dict at the reference level, as the source builds it:
`return {"agent": self._agent_location, ...}` puts the internal array
objects themselves into the fresh dict. -/
def get_observation_refs (e : EnvRefs) : EnvRefs :=
  ⟨e.agentRef, e.ghost1Ref, e.ghost2Ref, e.targetRef⟩

/-- The environment invariant carried along every reachable state: the
configuration fields are those established by the constructor, and any
existing positional state lies on the grid (ghosts moreover start from the
sub-region but may roam the whole grid afterwards). -/
def EnvInv (size : Nat) (e : GhostlyGridWorld) : Prop :=
  e.size = size ∧
  e.agentSpace = ⟨0, 0⟩ ∧
  e.targetSpace = ⟨(size : Int) - 1, (size : Int) - 1⟩ ∧
  e.ghost1Space = ⟨2, (size : Int) - 1⟩ ∧
  e.ghost2Space = ⟨2, (size : Int) - 1⟩ ∧
  ∀ s, e.st = some s →
    inBoundsP size s.agent ∧ inBoundsP size s.ghost1 ∧
    inBoundsP size s.ghost2 ∧ inBoundsP size s.target

/-- A concrete entropy bundle for one reset (ghost1 draws 0, ghost2 draws 1). -/
def d0 : ResetDraws := ⟨0, 0, 0, 0, 1, 1, 0, 0⟩

/-- The environment produced by `GhostlyGridWorld(size=6, render_mode=None)`. -/
def eFresh : GhostlyGridWorld :=
  { size := 6, agentSpace := ⟨0, 0⟩, targetSpace := ⟨5, 5⟩,
    ghost1Space := ⟨2, 5⟩, ghost2Space := ⟨2, 5⟩,
    renderMode := RMode.human, st := none }

/-- A size-6 environment after a reset placed the ghosts at (2,2) and (3,3). -/
def eReady : GhostlyGridWorld :=
  { size := 6, agentSpace := ⟨0, 0⟩, targetSpace := ⟨5, 5⟩,
    ghost1Space := ⟨2, 5⟩, ghost2Space := ⟨2, 5⟩,
    renderMode := RMode.human, st := some ⟨(0, 0), (2, 2), (3, 3), (5, 5)⟩ }

/-- A concrete heap of position arrays for the aliasing analysis. -/
def heap0 : Heap := [(0, 0), (2, 2), (3, 3), (5, 5)]

/-- The internal attributes pointing at the four arrays of `heap0`. -/
def envRefs0 : EnvRefs := ⟨0, 1, 2, 3⟩

deriving instance DecidableEq for Except

theorem mk_ok (size : Nat) (rm : RenderArg) (e : GhostlyGridWorld)
    (h : mkGhostlyGridWorld size rm = Except.ok e) :
    6 ≤ size ∧ renderArgValid rm = true ∧
    e = { size := size
          agentSpace := ⟨0, 0⟩
          targetSpace := ⟨(size : Int) - 1, (size : Int) - 1⟩
          ghost1Space := ⟨2, (size : Int) - 1⟩
          ghost2Space := ⟨2, (size : Int) - 1⟩
          renderMode := RMode.human
          st := none } := by
  by_cases h6 : 6 ≤ size
  · by_cases hv : renderArgValid rm = true
    · refine ⟨h6, hv, ?_⟩
      simp only [mkGhostlyGridWorld, if_pos h6, hv, if_pos, Except.ok.injEq] at h
      exact h.symm
    · simp only [mkGhostlyGridWorld, if_pos h6, hv] at h
      simp at h
  · simp only [mkGhostlyGridWorld, if_neg h6] at h
    exact Except.noConfusion h

theorem sample_bounds (b : BoxSpace) (hb : b.low ≤ b.high) (r1 r2 : Nat) :
    b.low ≤ (b.sample r1 r2).1 ∧ (b.sample r1 r2).1 ≤ b.high ∧
    b.low ≤ (b.sample r1 r2).2 ∧ (b.sample r1 r2).2 ≤ b.high := by
  have hpos : 0 < (b.high - b.low + 1).toNat := by omega
  have h1 := Nat.mod_lt r1 hpos
  have h2 := Nat.mod_lt r2 hpos
  simp only [BoxSpace.sample]
  refine ⟨?_, ?_, ?_, ?_⟩ <;> omega

theorem sample_point (c : Int) (r1 r2 : Nat) :
    BoxSpace.sample ⟨c, c⟩ r1 r2 = (c, c) := by
  simp only [BoxSpace.sample]
  norm_num

theorem clip2_bounds (p : Int × Int) (size : Nat) (h : 1 ≤ size) :
    inBoundsP size (clip2 p 0 ((size : Int) - 1)) := by
  have hle : (0 : Int) ≤ (size : Int) - 1 := by omega
  refine ⟨le_max_left _ _, max_le hle (min_le_right _ _),
          le_max_left _ _, max_le hle (min_le_right _ _)⟩

theorem get_reward_cases (s : WorldState) :
    ((get_reward s).1 = -1 ∨ (get_reward s).1 = 0 ∨ (get_reward s).1 = 1) ∧
    ((get_reward s).2 = true ↔ ((get_reward s).1 = -1 ∨ (get_reward s).1 = 1)) := by
  unfold get_reward
  split
  · simp
  · split <;> simp

theorem reset_fst (e : GhostlyGridWorld) (d : ResetDraws) :
    (reset e d).1 =
      { e with st := some ⟨e.agentSpace.sample d.a1 d.a2, e.ghost1Space.sample d.g11 d.g12,
                           e.ghost2Space.sample d.g21 d.g22, e.targetSpace.sample d.t1 d.t2⟩ } :=
  rfl

theorem step_fst_none (e : GhostlyGridWorld) (a : Int) (d1 d2 : Nat)
    (h : actionToDirection a = none ∨ e.st = none) :
    (step e a d1 d2).1 = e := by
  rcases ha : actionToDirection a with _ | dir
  · simp [step, ha]
  · rcases hs : e.st with _ | s
    · simp [step, ha, hs]
    · rcases h with h | h
      · rw [ha] at h; cases h
      · rw [hs] at h; cases h

theorem step_fst_some (e : GhostlyGridWorld) (a : Int) (dir : Int × Int) (d1 d2 : Nat)
    (s : WorldState) (ha : actionToDirection a = some dir) (hs : e.st = some s) :
    (step e a d1 d2).1 =
      { e with st := some ⟨clip2 (add2 s.agent dir) 0 ((e.size : Int) - 1),
                           clip2 (add2 s.ghost1 (ghostDirection d1)) 0 ((e.size : Int) - 1),
                           clip2 (add2 s.ghost2 (ghostDirection d2)) 0 ((e.size : Int) - 1),
                           s.target⟩ } := by
  simp [step, ha, hs]

theorem step_snd_some (e : GhostlyGridWorld) (a : Int) (dir : Int × Int) (d1 d2 : Nat)
    (s : WorldState) (ha : actionToDirection a = some dir) (hs : e.st = some s) :
    (step e a d1 d2).2 =
      Except.ok (⟨clip2 (add2 s.agent dir) 0 ((e.size : Int) - 1),
                  clip2 (add2 s.ghost1 (ghostDirection d1)) 0 ((e.size : Int) - 1),
                  clip2 (add2 s.ghost2 (ghostDirection d2)) 0 ((e.size : Int) - 1),
                  s.target⟩,
                 (get_reward ⟨clip2 (add2 s.agent dir) 0 ((e.size : Int) - 1),
                              clip2 (add2 s.ghost1 (ghostDirection d1)) 0 ((e.size : Int) - 1),
                              clip2 (add2 s.ghost2 (ghostDirection d2)) 0 ((e.size : Int) - 1),
                              s.target⟩).1,
                 (get_reward ⟨clip2 (add2 s.agent dir) 0 ((e.size : Int) - 1),
                              clip2 (add2 s.ghost1 (ghostDirection d1)) 0 ((e.size : Int) - 1),
                              clip2 (add2 s.ghost2 (ghostDirection d2)) 0 ((e.size : Int) - 1),
                              s.target⟩).2,
                 decide (e.renderMode = RMode.human)) := by
  simp [step, ha, hs]

theorem read_write_self (l : Heap) (i : Nat) (v : Int × Int) (h : i < l.length) :
    Heap.read (Heap.write l i v) i = v := by
  induction l generalizing i with
  | nil => simp [Heap, List.length] at h
  | cons x xs ih =>
    cases i with
    | zero => rfl
    | succ n =>
      have hn : n < xs.length := by
        simpa [Heap, List.length_cons] using h
      have : Heap.read (Heap.write (x :: xs) (n + 1) v) (n + 1)
          = Heap.read (Heap.write xs n v) n := rfl
      rw [this]
      exact ih n hn

theorem reachable_inv (size : Nat) (h6 : 6 ≤ size) (e0 e : GhostlyGridWorld)
    (h0 : EnvInv size e0) (hr : Reachable e0 e) : EnvInv size e := by
  induction hr with
  | init => exact h0
  | resetR e' d hr ih =>
    obtain ⟨hsz, hA, hT, hG1, hG2, _⟩ := ih
    rw [reset_fst]
    refine ⟨hsz, hA, hT, hG1, hG2, ?_⟩
    intro s hs
    simp only [Option.some.injEq] at hs
    subst hs
    have hag : e'.agentSpace.sample d.a1 d.a2 = (0, 0) := by
      rw [hA]; exact sample_point 0 d.a1 d.a2
    have htg : e'.targetSpace.sample d.t1 d.t2 = ((size : Int) - 1, (size : Int) - 1) := by
      rw [hT]; exact sample_point _ d.t1 d.t2
    have hl1 : e'.ghost1Space.low = 2 := by rw [hG1]
    have hh1 : e'.ghost1Space.high = (size : Int) - 1 := by rw [hG1]
    have hl2 : e'.ghost2Space.low = 2 := by rw [hG2]
    have hh2 : e'.ghost2Space.high = (size : Int) - 1 := by rw [hG2]
    have hg1 := sample_bounds e'.ghost1Space (by omega) d.g11 d.g12
    have hg2 := sample_bounds e'.ghost2Space (by omega) d.g21 d.g22
    dsimp only
    rw [hag, htg]
    simp only [inBoundsP]
    refine ⟨⟨by norm_num, by omega, by norm_num, by omega⟩,
            ⟨by omega, by omega, by omega, by omega⟩,
            ⟨by omega, by omega, by omega, by omega⟩,
            ⟨by omega, by omega, by omega, by omega⟩⟩
  | stepR e' a d1 d2 hr ih =>
    obtain ⟨hsz, hA, hT, hG1, hG2, hst⟩ := ih
    rcases ha : actionToDirection a with _ | dir
    · rw [step_fst_none e' a d1 d2 (Or.inl ha)]
      exact ⟨hsz, hA, hT, hG1, hG2, hst⟩
    · rcases hs : e'.st with _ | s
      · rw [step_fst_none e' a d1 d2 (Or.inr hs)]
        exact ⟨hsz, hA, hT, hG1, hG2, hst⟩
      · rw [step_fst_some e' a dir d1 d2 s ha hs]
        refine ⟨hsz, hA, hT, hG1, hG2, ?_⟩
        intro s' hs'
        simp only [Option.some.injEq] at hs'
        subst hs'
        have h1 : 1 ≤ size := by omega
        have htgt := (hst s hs).2.2.2
        rw [hsz]
        exact ⟨clip2_bounds _ size h1, clip2_bounds _ size h1, clip2_bounds _ size h1, htgt⟩

/-- Claim C1: in every state reachable by reset followed by any finite
sequence of step calls (any actions, any ghost direction draws), every
coordinate of agent, ghost1, ghost2 and target lies within [0, size-1];
each step clamps every moved coordinate independently to that range. -/
theorem bounds_invariant (size : Nat) (rm : RenderArg) (e0 e : GhostlyGridWorld)
    (hmk : mkGhostlyGridWorld size rm = Except.ok e0) (hr : Reachable e0 e)
    (s : WorldState) (hs : e.st = some s) :
    inBoundsP e.size s.agent ∧ inBoundsP e.size s.ghost1 ∧
    inBoundsP e.size s.ghost2 ∧ inBoundsP e.size s.target := by
  obtain ⟨h6, -, he0⟩ := mk_ok size rm e0 hmk
  have h0 : EnvInv size e0 := by
    subst he0
    exact ⟨rfl, rfl, rfl, rfl, rfl, fun s hs => by cases hs⟩
  have hinv := reachable_inv size h6 e0 e h0 hr
  rw [hinv.1]
  exact hinv.2.2.2.2.2 s hs

theorem bounds_invariant_witness :
    inBoundsP (reset eFresh d0).1.size (0, 0) ∧ inBoundsP (reset eFresh d0).1.size (2, 2) ∧
    inBoundsP (reset eFresh d0).1.size (3, 3) ∧ inBoundsP (reset eFresh d0).1.size (5, 5) :=
  bounds_invariant 6 RenderArg.noneArg eFresh (reset eFresh d0).1 (by decide)
    (Reachable.resetR eFresh d0 Reachable.init) ⟨(0, 0), (2, 2), (3, 3), (5, 5)⟩ (by decide)

/-- Claim C2: when the agent's post-move position coincides with a ghost and
simultaneously with the target, get_reward returns (-1, true), not +1: the
ghost-catch check is evaluated before the target check. -/
theorem catch_priority (s : WorldState)
    (hg : s.agent = s.ghost1 ∨ s.agent = s.ghost2) (ht : s.agent = s.target) :
    get_reward s = (-1, true) := by
  unfold get_reward
  rw [if_pos hg]

theorem catch_priority_witness :
    get_reward ⟨(5, 5), (5, 5), (2, 2), (5, 5)⟩ = (-1, true) :=
  catch_priority ⟨(5, 5), (5, 5), (2, 2), (5, 5)⟩ (by decide) (by decide)

/-- Claim C3: every successful step returns a reward that is exactly one of
-1, 0, +1, with done true if and only if the reward is -1 or +1. -/
theorem reward_exclusivity (e : GhostlyGridWorld) (a : Int) (d1 d2 : Nat)
    (o : Obs) (r : Int) (dn f : Bool)
    (h : (step e a d1 d2).2 = Except.ok (o, r, dn, f)) :
    (r = -1 ∨ r = 0 ∨ r = 1) ∧ (dn = true ↔ (r = -1 ∨ r = 1)) := by
  rcases ha : actionToDirection a with _ | dir
  · simp [step, ha] at h
  · rcases hs : e.st with _ | s
    · simp [step, ha, hs] at h
    · rw [step_snd_some e a dir d1 d2 s ha hs] at h
      simp only [Except.ok.injEq, Prod.mk.injEq] at h
      obtain ⟨-, hre, hdn, -⟩ := h
      rw [← hre, ← hdn]
      exact get_reward_cases _

theorem reward_exclusivity_witness :
    ((0 : Int) = -1 ∨ (0 : Int) = 0 ∨ (0 : Int) = 1) ∧
    (false = true ↔ ((0 : Int) = -1 ∨ (0 : Int) = 1)) :=
  reward_exclusivity eReady 0 1 2 ⟨(1, 0), (2, 3), (2, 3), (5, 5)⟩ 0 false true (by decide)

/-- Claim C4: every reset of a constructed (reachable) environment returns
agent (0,0) and target (size-1, size-1), each ghost sampled inside
[2, size-1] on both coordinates, and each ghost's sample depends only on its
own entropy draws (ghost1 and ghost2 are sampled independently). -/
theorem reset_freshness (size : Nat) (rm : RenderArg) (e0 e : GhostlyGridWorld)
    (hmk : mkGhostlyGridWorld size rm = Except.ok e0) (hr : Reachable e0 e) (d : ResetDraws) :
    (reset e d).2.1.agent = (0, 0) ∧
    (reset e d).2.1.target = ((size : Int) - 1, (size : Int) - 1) ∧
    (2 ≤ (reset e d).2.1.ghost1.1 ∧ (reset e d).2.1.ghost1.1 ≤ (size : Int) - 1 ∧
     2 ≤ (reset e d).2.1.ghost1.2 ∧ (reset e d).2.1.ghost1.2 ≤ (size : Int) - 1) ∧
    (2 ≤ (reset e d).2.1.ghost2.1 ∧ (reset e d).2.1.ghost2.1 ≤ (size : Int) - 1 ∧
     2 ≤ (reset e d).2.1.ghost2.2 ∧ (reset e d).2.1.ghost2.2 ≤ (size : Int) - 1) ∧
    (∀ d' : ResetDraws, d'.g11 = d.g11 → d'.g12 = d.g12 →
      (reset e d').2.1.ghost1 = (reset e d).2.1.ghost1) ∧
    (∀ d' : ResetDraws, d'.g21 = d.g21 → d'.g22 = d.g22 →
      (reset e d').2.1.ghost2 = (reset e d).2.1.ghost2) := by
  obtain ⟨h6, -, he0⟩ := mk_ok size rm e0 hmk
  have h0 : EnvInv size e0 := by
    subst he0
    exact ⟨rfl, rfl, rfl, rfl, rfl, fun s hs => by cases hs⟩
  obtain ⟨hsz, hA, hT, hG1, hG2, -⟩ := reachable_inv size h6 e0 e h0 hr
  have hl1 : e.ghost1Space.low = 2 := by rw [hG1]
  have hh1 : e.ghost1Space.high = (size : Int) - 1 := by rw [hG1]
  have hl2 : e.ghost2Space.low = 2 := by rw [hG2]
  have hh2 : e.ghost2Space.high = (size : Int) - 1 := by rw [hG2]
  have hg1 := sample_bounds e.ghost1Space (by omega) d.g11 d.g12
  have hg2 := sample_bounds e.ghost2Space (by omega) d.g21 d.g22
  have e1 : (reset e d).2.1.ghost1 = e.ghost1Space.sample d.g11 d.g12 := rfl
  have e2 : (reset e d).2.1.ghost2 = e.ghost2Space.sample d.g21 d.g22 := rfl
  refine ⟨?_, ?_, ?_, ?_, ?_, ?_⟩
  · show e.agentSpace.sample d.a1 d.a2 = (0, 0)
    rw [hA]
    exact sample_point 0 d.a1 d.a2
  · show e.targetSpace.sample d.t1 d.t2 = ((size : Int) - 1, (size : Int) - 1)
    rw [hT]
    exact sample_point _ d.t1 d.t2
  · rw [e1]
    exact ⟨by omega, by omega, by omega, by omega⟩
  · rw [e2]
    exact ⟨by omega, by omega, by omega, by omega⟩
  · intro d' hd1 hd2
    show e.ghost1Space.sample d'.g11 d'.g12 = e.ghost1Space.sample d.g11 d.g12
    rw [hd1, hd2]
  · intro d' hd1 hd2
    show e.ghost2Space.sample d'.g21 d'.g22 = e.ghost2Space.sample d.g21 d.g22
    rw [hd1, hd2]

theorem reset_freshness_witness :
    (reset eFresh d0).2.1.agent = (0, 0) ∧
    (reset eFresh d0).2.1.target = ((6 : Int) - 1, (6 : Int) - 1) :=
  ⟨(reset_freshness 6 RenderArg.noneArg eFresh eFresh (by decide) Reachable.init d0).1,
   (reset_freshness 6 RenderArg.noneArg eFresh eFresh (by decide) Reachable.init d0).2.1⟩

/-- Claim C5: step with an action outside the direction table raises the
KeyError (the InvalidActionError of the spec) immediately, before any entity
position is touched: the environment component of the result is unchanged. -/
theorem invalid_action_no_mutation (e : GhostlyGridWorld) (a : Int) (d1 d2 : Nat)
    (h0 : a ≠ 0) (h1 : a ≠ 1) (h2 : a ≠ 2) (h3 : a ≠ 3) :
    step e a d1 d2 = (e, Except.error PyError.keyError) := by
  have ha : actionToDirection a = none := by
    unfold actionToDirection
    rw [if_neg h0, if_neg h1, if_neg h2, if_neg h3]
  simp [step, ha]

theorem invalid_action_no_mutation_witness :
    step eReady 4 0 0 = (eReady, Except.error PyError.keyError) :=
  invalid_action_no_mutation eReady 4 0 0 (by decide) (by decide) (by decide) (by decide)

/-- Claim C6: construction raises the assertion error (the spec's
ConfigurationError) whenever size is below the floor 6 (so in particular
for size = 5) or the render mode is unrecognized; for every valid size and
render mode it succeeds with no positional state sampled. -/
theorem construction_validation :
    (∀ (size : Nat) (rm : RenderArg), size < 6 →
      mkGhostlyGridWorld size rm = Except.error PyError.assertionError) ∧
    (∀ size : Nat, 6 ≤ size →
      mkGhostlyGridWorld size RenderArg.invalidArg = Except.error PyError.assertionError) ∧
    (∀ (size : Nat) (rm : RenderArg), 6 ≤ size → rm ≠ RenderArg.invalidArg →
      ∃ env, mkGhostlyGridWorld size rm = Except.ok env ∧ env.st = none) := by
  refine ⟨?_, ?_, ?_⟩
  · intro size rm hlt
    rw [mkGhostlyGridWorld, if_neg (by omega)]
  · intro size h6
    rw [mkGhostlyGridWorld, if_pos h6]
    rfl
  · intro size rm h6 hne
    have hv : renderArgValid rm = true := by
      cases rm <;> simp [renderArgValid] at hne ⊢
    rw [mkGhostlyGridWorld, if_pos h6, if_pos hv]
    exact ⟨_, rfl, rfl⟩

theorem construction_validation_witness :
    mkGhostlyGridWorld 5 RenderArg.noneArg = Except.error PyError.assertionError ∧
    mkGhostlyGridWorld 6 RenderArg.invalidArg = Except.error PyError.assertionError ∧
    ∃ env, mkGhostlyGridWorld 6 RenderArg.humanArg = Except.ok env ∧ env.st = none :=
  ⟨construction_validation.1 5 RenderArg.noneArg (by decide),
   construction_validation.2.1 6 (by decide),
   construction_validation.2.2 6 RenderArg.humanArg (by decide) (by decide)⟩

/-- Claim C7 as stated is false on the code: get_observation puts the
internal position arrays themselves into the returned dict (no copy), so a
caller writing (9,9) through the agent entry of a returned observation
changes the environment's internal agent position. -/
theorem observation_not_copied :
    Heap.read (Heap.write heap0 (get_observation_refs envRefs0).agentRef (9, 9)) envRefs0.agentRef
      ≠ Heap.read heap0 envRefs0.agentRef := by
  decide

/-- Claim C7 amended: the observation dict is freshly built but its position
entries are references to the internal arrays, so any caller write through a
returned position is visible in the environment's internal state. -/
theorem observation_aliases_state (e : EnvRefs) (h : Heap) (v : Int × Int)
    (hlen : e.agentRef < h.length) :
    get_observation_refs e = e ∧
    Heap.read (Heap.write h (get_observation_refs e).agentRef v) e.agentRef = v :=
  ⟨rfl, read_write_self h e.agentRef v hlen⟩

theorem observation_aliases_state_witness :
    get_observation_refs envRefs0 = envRefs0 ∧
    Heap.read (Heap.write heap0 (get_observation_refs envRefs0).agentRef (7, 7)) envRefs0.agentRef
      = (7, 7) :=
  observation_aliases_state envRefs0 heap0 (7, 7) (by decide)

/-- Claim C8 fails on the code (source line 48 hardcodes
self.render_mode = 'human', discarding the validated argument): every
successful construction stores render mode human, and consequently every
reset draws a frame, even when the caller passed render_mode None. -/
theorem render_mode_ignored (size : Nat) (rm : RenderArg) (e : GhostlyGridWorld)
    (hmk : mkGhostlyGridWorld size rm = Except.ok e) :
    e.renderMode = RMode.human ∧ ∀ d : ResetDraws, (reset e d).2.2 = true := by
  obtain ⟨-, -, he⟩ := mk_ok size rm e hmk
  subst he
  exact ⟨rfl, fun d => rfl⟩

theorem render_mode_ignored_witness :
    eFresh.renderMode = RMode.human ∧ (reset eFresh d0).2.2 = true :=
  ⟨(render_mode_ignored 6 RenderArg.noneArg eFresh (by decide)).1,
   (render_mode_ignored 6 RenderArg.noneArg eFresh (by decide)).2 d0⟩

/-- Claim C9: with the entropy source made explicit, reset followed by a
fixed action sequence is a deterministic function of the seed-derived draws:
two runs given the same draws and the same actions produce identical
observation, reward and done sequences. -/
theorem deterministic_runs (e : GhostlyGridWorld) (rd1 rd2 : ResetDraws)
    (s1 s2 : StepScript) (hrd : rd1 = rd2) (hs : s1 = s2) :
    runEpisode e rd1 s1 = runEpisode e rd2 s2 := by
  subst hrd
  subst hs
  rfl

theorem deterministic_runs_witness :
    runEpisode eFresh d0 [(0, 1, 2), (1, 0, 3)] = runEpisode eFresh d0 [(0, 1, 2), (1, 0, 3)] :=
  deterministic_runs eFresh d0 d0 [(0, 1, 2), (1, 0, 3)] [(0, 1, 2), (1, 0, 3)] rfl rfl

/-- Claim C10: on a freshly constructed environment (before any reset) the
positional attributes do not exist: step raises an error for every action
(KeyError for an invalid one, AttributeError otherwise) and get_observation
raises AttributeError; the positional state is first created by reset. -/
theorem use_before_reset (size : Nat) (rm : RenderArg) (e : GhostlyGridWorld)
    (hmk : mkGhostlyGridWorld size rm = Except.ok e) :
    (∀ (a : Int) (d1 d2 : Nat),
      (step e a d1 d2).2 = Except.error PyError.keyError ∨
      (step e a d1 d2).2 = Except.error PyError.attributeError) ∧
    get_observation e = Except.error PyError.attributeError ∧
    e.st = none ∧
    ∀ d : ResetDraws, ((reset e d).1.st).isSome = true := by
  obtain ⟨-, -, he⟩ := mk_ok size rm e hmk
  subst he
  refine ⟨?_, rfl, rfl, fun d => rfl⟩
  intro a d1 d2
  rcases ha : actionToDirection a with _ | dir
  · left
    simp [step, ha]
  · right
    simp [step, ha]

theorem use_before_reset_witness :
    (step eFresh 0 0 0).2 = Except.error PyError.keyError ∨
    (step eFresh 0 0 0).2 = Except.error PyError.attributeError :=
  (use_before_reset 6 RenderArg.noneArg eFresh (by decide)).1 0 0 0

end GhostlyGrid
